import Mathlib

/-!
Shallow embedding of the client-side logic of the spotify-sentiment-playlist
front end (src/frontend/webapp.js and src/frontend/config.js), together with
theorems settling the specification claims about it.

JavaScript conventions modelled explicitly:
  * `x || y` on strings treats `""` as falsy (`jsOrS`);
  * optional / possibly-absent JSON fields are `Option`;
  * thrown exceptions are `Except String`.
-/

/-- JS `a || b` on strings: the empty string is falsy. -/
def jsOrS (a b : String) : String := if a = "" then b else a

/-- JS read of a possibly-absent string field followed by `|| ""`. -/
def jsStr (o : Option String) : String := match o with
  | some s => s
  | none => ""

/-- JS `x || null` on a possibly-absent string: both absence and `""` give null. -/
def jsOrNull (o : Option String) : Option String := match o with
  | some s => if s = "" then none else some s
  | none => none

/-- `isSubAt pat s` holds when `pat` occurs at the very start of `s`. -/
def isSubAt : List Char → List Char → Bool
  | [], _ => true
  | _ :: _, [] => false
  | p :: ps, c :: cs => p == c && isSubAt ps cs

/-- `containsSub pat s`: `pat` occurs somewhere inside `s` (substring test,
the semantics of a JS alternation-of-literals regex `test`). -/
def containsSub (pat : List Char) : List Char → Bool
  | [] => pat.isEmpty
  | c :: cs => isSubAt pat (c :: cs) || containsSub pat cs

/-- JS `String.prototype.toLowerCase`, restricted to its ASCII behaviour
(the classifier keywords and all header names are ASCII). -/
def toLowerCase (s : String) : String := String.mk (s.data.map Char.toLower)

/-- JS `String.prototype.trim`: strip leading and trailing whitespace. -/
def jsTrim (s : String) : String :=
  String.mk (((s.data.dropWhile Char.isWhitespace).reverse.dropWhile
    Char.isWhitespace).reverse)

/-- Split at the first occurrence of `pat`: `some (before, after)`, or `none`
when `pat` does not occur. -/
def breakOnSub (pat : List Char) : List Char → Option (List Char × List Char)
  | [] => if pat.isEmpty then some ([], []) else none
  | c :: cs =>
    if isSubAt pat (c :: cs) then some ([], (c :: cs).drop pat.length)
    else
      match breakOnSub pat cs with
      | some (pre, post) => some (c :: pre, post)
      | none => none

/-- One keyword occurs in the text (as a substring). -/
def containsKw (text kw : String) : Bool := containsSub kw.toList text.toList

/-- The regex `/(k1|k2|...)/.test(text)`: some alternative occurs in `text`. -/
def matchesAny (text : String) (kws : List String) : Bool :=
  kws.any (containsKw text)

/-- The discrete mode tags produced by the client-side classifier
(webapp.js `detectMode`). -/
inductive ModeTag
  | sleep
  | focus
  | gym
  | calm
  | rage_release
  | uplift
deriving DecidableEq, Repr

/-- Alternatives of the sleep regex in webapp.js line 58. -/
def sleepKeywords : List String := ["sleep", "insomnia", "exhausted", "tired", "bed", "night"]

/-- Alternatives of the focus regex in webapp.js line 61. -/
def focusKeywords : List String := ["focus", "study", "deep work", "concentrate", "productive"]

/-- Alternatives of the gym regex in webapp.js line 64. -/
def gymKeywords : List String := ["workout", "gym", "lift", "run", "training"]

/-- Alternatives of the calm regex in webapp.js line 67. -/
def calmKeywords : List String := ["anxious", "anxiety", "stressed", "stress", "calm", "panic"]

/-- Alternatives of the rage regex in webapp.js line 70. -/
def rageKeywords : List String := ["angry", "rage", "furious", "mad", "frustrated"]

/-- webapp.js `detectMode`: lower-case the text, then test the keyword sets
in the fixed order sleep, focus, gym, calm, rage_release; default uplift. -/
def detectMode (text : String) : ModeTag :=
  let moodText := toLowerCase text
  if matchesAny moodText sleepKeywords then .sleep
  else if matchesAny moodText focusKeywords then .focus
  else if matchesAny moodText gymKeywords then .gym
  else if matchesAny moodText calmKeywords then .calm
  else if matchesAny moodText rageKeywords then .rage_release
  else .uplift

/-! ### config.js: localhost guard and request URL building -/

/-- config.js `isLocalHostname`. -/
def isLocalHostname (hostname : String) : Bool :=
  hostname == "localhost" || hostname == "127.0.0.1" || hostname == "[::1]"

/-- Hostname extraction of `new URL(s).hostname` for ordinary absolute URLs:
the text after the first `"://"` and before the first of `/ ? #`, with any
user-info (up to the last `@`) stripped; a bracketed IPv6 host keeps its
brackets; the result is lower-cased. An input with no `"://"`, an empty
scheme, or an empty host is a parse failure (`none`), matching the `catch`
branch of config.js `isApiBaseLocalhost`. -/
def parseUrlHostname (s : String) : Option String :=
  match breakOnSub "://".toList s.toList with
  | none => none
  | some (scheme, remainder) =>
    if scheme.isEmpty then none
    else
      let authority := remainder.takeWhile (fun c => c ≠ '/' && c ≠ '?' && c ≠ '#')
      let hostPort := (authority.reverse.takeWhile (· ≠ '@')).reverse
      let host :=
        match hostPort with
        | '[' :: tl => '[' :: (tl.takeWhile (· ≠ ']')) ++ [']']
        | _ => hostPort.takeWhile (· ≠ ':')
      if host.isEmpty then none
      else some (toLowerCase (String.mk host))

/-- config.js `isApiBaseLocalhost`: parse the URL; a parse failure is caught
and yields `false`. -/
def isApiBaseLocalhost (apiBaseUrl : String) : Bool :=
  match parseUrlHostname apiBaseUrl with
  | some h => isLocalHostname h
  | none => false

/-- The error message thrown by config.js `ensureApiReachableFromFrontend`. -/
def localhostGuardMessage : String :=
  "API base URL points to localhost, which is unreachable from this hosted frontend. Set NEXT_PUBLIC_API_BASE_URL to a public HTTPS URL (for example, a tunnel URL)."

/-- config.js `ensureApiReachableFromFrontend`, parameterised by the resolved
`API_BASE_URL` and the page hostname (`window.location.hostname`); a thrown
`Error` is `Except.error` its message. -/
def ensureApiReachableFromFrontend (apiBaseUrl pageHostname : String) :
    Except String Unit :=
  if apiBaseUrl = "" then .ok ()
  else
    let frontendIsLocal := isLocalHostname pageHostname
    if !frontendIsLocal && isApiBaseLocalhost apiBaseUrl then
      .error localhostGuardMessage
    else .ok ()

/-- config.js `apiUrl`, parameterised by `API_BASE_URL`. -/
def apiUrl (apiBaseUrl path : String) : String :=
  let normalizedPath :=
    match path.data with
    | '/' :: _ => path
    | _ => "/" ++ path
  apiBaseUrl ++ normalizedPath

/-! ### config.js: header handling of `apiFetch` -/

/-- JS `Headers` name comparison is case-insensitive. -/
def headerNameEq (a b : String) : Bool := toLowerCase a == toLowerCase b

/-- JS `headers.has(name)`. -/
def hasHeader (hs : List (String × String)) (name : String) : Bool :=
  hs.any (fun p => headerNameEq p.1 name)

/-- JS `headers.set(name, value)`: replace an existing entry of that name,
otherwise append. -/
def setHeader (hs : List (String × String)) (name value : String) :
    List (String × String) :=
  if hasHeader hs name then
    hs.map (fun p => if headerNameEq p.1 name then (p.1, value) else p)
  else hs ++ [(name, value)]

/-- JS `headers.get(name)` (first entry of that name). -/
def getHeader (hs : List (String × String)) (name : String) : Option String :=
  (hs.find? (fun p => headerNameEq p.1 name)).map (·.2)

/-- The caller-controlled parts of `apiFetch`'s `init` argument that the
header logic inspects. -/
structure ApiInit where
  headers : List (String × String)
  hasBody : Bool
  isFormData : Bool

/-- Outcome of `getSupabaseSession()` as seen inside `apiFetch`'s `try`:
either a thrown error, or the value of `session?.access_token` (an absent
session or token is `none`). -/
def tokenOf (tokenFetch : Except String (Option String)) : String :=
  match tokenFetch with
  | .ok (some t) => t
  | .ok none => ""
  | .error _ => ""

/-- apiFetch lines 308-310: default Content-Type for a non-FormData body. -/
def withContentTypeHeader (init : ApiInit) : List (String × String) :=
  if init.hasBody && !init.isFormData && !hasHeader init.headers "Content-Type" then
    setHeader init.headers "Content-Type" "application/json"
  else init.headers

/-- apiFetch lines 311-313: default Accept header. -/
def withAcceptHeader (hs : List (String × String)) : List (String × String) :=
  if !hasHeader hs "Accept" then setHeader hs "Accept" "application/json"
  else hs

/-- The header-building prefix of config.js `apiFetch` (lines 304-325):
default Content-Type for non-FormData bodies, default Accept, then attach
the bearer token unless the caller already set Authorization. -/
def buildApiHeaders (init : ApiInit) (tokenFetch : Except String (Option String)) :
    List (String × String) :=
  let headers := withAcceptHeader (withContentTypeHeader init)
  let accessToken := tokenOf tokenFetch
  if accessToken != "" && !hasHeader headers "Authorization" then
    setHeader headers "Authorization" ("Bearer " ++ accessToken)
  else headers

/-- The request `apiFetch` hands to `fetch`. -/
structure ApiRequest where
  url : String
  headers : List (String × String)
  credentialsInclude : Bool
deriving DecidableEq, Repr

/-- The synchronous prefix of config.js `apiFetch` up to the `fetch` call:
run the localhost guard, then build the request. An `Except.error` means the
call threw before any network request was issued. -/
def apiFetchRequest (apiBaseUrl pageHostname path : String) (init : ApiInit)
    (tokenFetch : Except String (Option String)) : Except String ApiRequest :=
  match ensureApiReachableFromFrontend apiBaseUrl pageHostname with
  | .error e => .error e
  | .ok _ =>
    .ok { url := apiUrl apiBaseUrl path
          headers := buildApiHeaders init tokenFetch
          credentialsInclude := true }

/-! ### config.js: `checkAuth` (backend auth probe) -/

/-- The `/auth/me` response body as decoded JSON. Absent fields are `none`;
`authenticated` absent is modelled as `false` (JS falsiness). -/
structure AuthMe where
  authenticated : Bool
  user_id : Option String
  display_name : Option String
deriving DecidableEq, Repr

/-- What a browser `fetch` of the probe can observe: a transport failure, or
a response with a success flag (`response.ok`) and a JSON decode outcome of
its body (`response.json()` throwing is `Except.error`). -/
inductive FetchOutcome (α : Type)
  | transportError
  | response (ok : Bool) (body : Except String α)
deriving Repr

/-- The body of config.js `checkAuth`'s `try` block, without the catch:
a transport failure or a body-decode failure propagates as a thrown error. -/
def checkAuthAttempt (f : FetchOutcome AuthMe) : Except String (Option AuthMe) :=
  match f with
  | .transportError => .error "fetch failed"
  | .response ok body =>
    if !ok then .ok none
    else match body with
      | .ok a => .ok (some a)
      | .error e => .error e

/-- config.js `checkAuth`: the attempt wrapped in `try { ... } catch { return null }`. -/
def checkAuth (f : FetchOutcome AuthMe) : Option AuthMe :=
  match checkAuthAttempt f with
  | .ok v => v
  | .error _ => none

/-! ### webapp.js: `ensureAuthenticated` -/

/-- What `ensureAuthenticated` does: either redirect to the login page, or
record the authenticated session (display name and user id). -/
inductive AuthOutcome
  | redirect
  | ok (displayName userId : String)
deriving DecidableEq, Repr

/-- `backendAuth.display_name || spotifyUserId`: the display name falls back
to the user id when absent or empty. -/
def displayNameFallback (a : AuthMe) (uid : String) : String :=
  jsOrS (jsStr a.display_name) uid

/-- webapp.js `ensureAuthenticated` (lines 144-175), applied to the result of
`checkAuth` (which never throws, so the catch branch is unreachable). -/
def ensureAuthenticated (backendAuth : Option AuthMe) : AuthOutcome :=
  let auth := match backendAuth with
    | some a => a.authenticated
    | none => false
  let spotifyUserId := match backendAuth with
    | some a => jsOrNull a.user_id
    | none => none
  if !auth || spotifyUserId.isNone then .redirect
  else
    match backendAuth, spotifyUserId with
    | some a, some uid => .ok (displayNameFallback a uid) uid
    | _, _ => .redirect

/-! ### webapp.js: `renderPlaylist` -/

/-- One entry of the response's `track_links` array. -/
structure TrackLink where
  name : Option String
  artist : Option String
  url : String
deriving DecidableEq, Repr

/-- The decoded generation response payload; every field may be absent. -/
structure GenPayload where
  playlist_name : Option String
  playlistName : Option String
  playlist_url : Option String
  playlistUrl : Option String
  track_links : Option (List TrackLink)
  spotify_note : Option String
  tracks_added : Option Int
deriving DecidableEq, Repr

/-- `data?.playlist_name || data?.playlistName || "Playlist"`. -/
def payloadName (d : Option GenPayload) : String :=
  match d with
  | some p => jsOrS (jsStr p.playlist_name) (jsOrS (jsStr p.playlistName) "Playlist")
  | none => "Playlist"

/-- `data?.playlist_url || data?.playlistUrl || ""`. -/
def payloadUrl (d : Option GenPayload) : String :=
  match d with
  | some p => jsOrS (jsStr p.playlist_url) (jsStr p.playlistUrl)
  | none => ""

/-- `data?.track_links || []` (an empty array is truthy in JS, so it is kept). -/
def payloadTrackLinks (d : Option GenPayload) : List TrackLink :=
  match d with
  | some p => p.track_links.getD []
  | none => []

/-- `data?.spotify_note || ""`. -/
def payloadNote (d : Option GenPayload) : String :=
  match d with
  | some p => jsStr p.spotify_note
  | none => ""

/-- `data?.tracks_added || 0`. -/
def payloadTracksAdded (d : Option GenPayload) : Int :=
  match d with
  | some p => p.tracks_added.getD 0
  | none => 0

/-- Which of the DOM elements `renderPlaylist` touches exist on the page. -/
structure Dom where
  playlistTitle : Bool
  playlistLink : Bool
  playlistBox : Bool
  heroSection : Bool
  moodForm : Bool
  lastPrompt : Bool
  newPlaylistBtn : Bool
  noteEl : Bool
  trackListEl : Bool
  flowError : Bool
deriving DecidableEq, Repr

/-- The observable effect of one `renderPlaylist` call. An `Option` field is
`none` when the corresponding DOM state is left untouched. -/
structure RenderEffect where
  titleText : Option String
  linkHref : Option String
  flowErrorMsg : Option String
  moodFormHidden : Option Bool
  heroHidden : Option Bool
  lastPromptHidden : Option Bool
  playlistBoxHidden : Option Bool
  playlistLinkHidden : Option Bool
  newBtnHidden : Option Bool
  noteText : Option String
  renderedTrackLinks : Option (List String)
deriving DecidableEq, Repr

/-- A `RenderEffect` that touches nothing. -/
def RenderEffect.none : RenderEffect :=
  { titleText := Option.none, linkHref := Option.none, flowErrorMsg := Option.none,
    moodFormHidden := Option.none, heroHidden := Option.none,
    lastPromptHidden := Option.none, playlistBoxHidden := Option.none,
    playlistLinkHidden := Option.none, newBtnHidden := Option.none,
    noteText := Option.none, renderedTrackLinks := Option.none }

/-- Link text of webapp.js lines 134-136:
`track.name && track.artist ? `name — artist` : `Track i+1``. -/
def trackLinkText (i : Nat) (t : TrackLink) : String :=
  if jsStr t.name != "" && jsStr t.artist != "" then
    jsStr t.name ++ " — " ++ jsStr t.artist
  else "Track " ++ toString (i + 1)

/-- All link texts appended by the `forEach` over `trackLinks`. -/
def trackLinkTexts (links : List TrackLink) : List String :=
  links.enum.map (fun p => trackLinkText p.1 p.2)

/-- webapp.js `renderPlaylist` (lines 84-142) as a pure effect description.
Helpers `setHidden`/`setError` no-op on a missing element, which is why every
write is guarded by the corresponding `Dom` flag. -/
def renderPlaylist (dom : Dom) (data : Option GenPayload) : RenderEffect :=
  if !dom.playlistTitle || !dom.playlistLink then RenderEffect.none
  else
    let playlistUrl := payloadUrl data
    let spotifyNote := payloadNote data
    let trackLinks := payloadTrackLinks data
    let tracksAdded := payloadTracksAdded data
    let base := { RenderEffect.none with titleText := some (payloadName data) }
    if playlistUrl != "" then
      { base with
        linkHref := some playlistUrl
        playlistLinkHidden := if dom.playlistLink then some false else Option.none
        playlistBoxHidden := if dom.playlistBox then some false else Option.none
        heroHidden := if dom.heroSection then some true else Option.none
        moodFormHidden := if dom.moodForm then some true else Option.none
        lastPromptHidden := if dom.lastPrompt then some true else Option.none
        newBtnHidden := if dom.newPlaylistBtn then some false else Option.none
        noteText := if dom.noteEl && spotifyNote != "" then some spotifyNote else Option.none
        renderedTrackLinks :=
          if dom.trackListEl && decide (trackLinks.length > 0) && tracksAdded == 0 then
            some (trackLinkTexts trackLinks)
          else Option.none }
    else
      let note := jsOrS spotifyNote "Playlist could not be created. Please try again."
      { base with
        flowErrorMsg := if dom.flowError then some note else Option.none }

/-! ### webapp.js: `handleSubmit` -/

/-- JS `parseInt(s, 10)`: skip leading whitespace, read an optional sign,
then a maximal digit run; `none` models `NaN`. -/
def parseIntJs (s : String) : Option Int :=
  let cs := s.toList.dropWhile (fun c => c.isWhitespace)
  let signAndRest : Int × List Char :=
    match cs with
    | '-' :: rest => (-1, rest)
    | '+' :: rest => (1, rest)
    | _ => (1, cs)
  let digits := signAndRest.2.takeWhile (·.isDigit)
  if digits.isEmpty then none
  else some (signAndRest.1 * (digits.foldl (fun acc c => acc * 10 + (c.toNat - '0'.toNat)) 0 : Nat))

/-- The JSON body of the generation request (webapp.js lines 213-220).
`tracks` is `none` when `parseInt` yielded `NaN`; the source field named
`public` is called `isPublic` here. -/
structure GenBody where
  text : String
  goal : String
  mode : ModeTag
  stages : Int
  tracks : Option Int
  isPublic : Bool
deriving DecidableEq, Repr

/-- The page state `handleSubmit` reads. -/
structure SubmitEnv where
  submitting : Bool
  moodInputPresent : Bool
  goalInputPresent : Bool
  moodValue : String
  goalValue : String
  authenticated : Bool
  tracksInputPresent : Bool
  tracksValue : String
deriving DecidableEq, Repr

/-- What the synchronous prefix of `handleSubmit` does, up to and including
issuing (or not issuing) the network call. -/
inductive SubmitOutcome
  | noop
  | validationError (msg : String)
  | authRedirect (msg : String)
  | request (body : GenBody)
deriving DecidableEq, Repr

/-- webapp.js `handleSubmit` (lines 177-228) up to the `apiFetch` call:
the re-entrancy guard, both trim-validations, the auth gate, and the
request body construction. -/
def handleSubmit (env : SubmitEnv) : SubmitOutcome :=
  if env.submitting || !env.moodInputPresent || !env.goalInputPresent then .noop
  else
    let text := jsTrim env.moodValue
    let goalText := jsTrim env.goalValue
    if text = "" then .validationError "Tell me how you are feeling right now."
    else if goalText = "" then .validationError "Tell me how you want to feel."
    else if !env.authenticated then .authRedirect "Spotify session not available."
    else
      .request
        { text := text
          goal := goalText
          mode := detectMode (text ++ " " ++ goalText)
          stages := 5
          tracks := if env.tracksInputPresent then parseIntJs env.tracksValue else some 30
          isPublic := false }

/-! ### Claim theorems -/

/-- C1: `detectMode` applies the case-insensitive keyword tests in the fixed
order sleep, focus, gym, calm, rage_release to the lower-cased text, returns
the first category that matches and `uplift` when none do; in particular a
text matching both the sleep and the calm keyword sets classifies as sleep
(there is exactly one result since `detectMode` is a function). -/
theorem detectMode_first_match (text : String) :
    (detectMode text = ModeTag.sleep ↔
      matchesAny (toLowerCase text) sleepKeywords = true) ∧
    (detectMode text = ModeTag.focus ↔
      (matchesAny (toLowerCase text) sleepKeywords = false ∧
       matchesAny (toLowerCase text) focusKeywords = true)) ∧
    (detectMode text = ModeTag.gym ↔
      (matchesAny (toLowerCase text) sleepKeywords = false ∧
       matchesAny (toLowerCase text) focusKeywords = false ∧
       matchesAny (toLowerCase text) gymKeywords = true)) ∧
    (detectMode text = ModeTag.calm ↔
      (matchesAny (toLowerCase text) sleepKeywords = false ∧
       matchesAny (toLowerCase text) focusKeywords = false ∧
       matchesAny (toLowerCase text) gymKeywords = false ∧
       matchesAny (toLowerCase text) calmKeywords = true)) ∧
    (detectMode text = ModeTag.rage_release ↔
      (matchesAny (toLowerCase text) sleepKeywords = false ∧
       matchesAny (toLowerCase text) focusKeywords = false ∧
       matchesAny (toLowerCase text) gymKeywords = false ∧
       matchesAny (toLowerCase text) calmKeywords = false ∧
       matchesAny (toLowerCase text) rageKeywords = true)) ∧
    (detectMode text = ModeTag.uplift ↔
      (matchesAny (toLowerCase text) sleepKeywords = false ∧
       matchesAny (toLowerCase text) focusKeywords = false ∧
       matchesAny (toLowerCase text) gymKeywords = false ∧
       matchesAny (toLowerCase text) calmKeywords = false ∧
       matchesAny (toLowerCase text) rageKeywords = false)) ∧
    (matchesAny (toLowerCase text) sleepKeywords = true →
     matchesAny (toLowerCase text) calmKeywords = true →
     detectMode text = ModeTag.sleep) := by
  unfold detectMode
  cases hs : matchesAny (toLowerCase text) sleepKeywords <;>
    cases hf : matchesAny (toLowerCase text) focusKeywords <;>
      cases hg : matchesAny (toLowerCase text) gymKeywords <;>
        cases hc : matchesAny (toLowerCase text) calmKeywords <;>
          cases hr : matchesAny (toLowerCase text) rageKeywords <;>
            simp [hs, hf, hg, hc, hr]

/-- Witness for C1: "tired and anxious" matches both the sleep and the calm
keyword sets and classifies as sleep. -/
theorem detectMode_first_match_witness :
    matchesAny (toLowerCase "tired and anxious") sleepKeywords = true ∧
    matchesAny (toLowerCase "tired and anxious") calmKeywords = true ∧
    detectMode "tired and anxious" = ModeTag.sleep :=
  ⟨by decide, by decide,
    (detectMode_first_match "tired and anxious").2.2.2.2.2.2 (by decide) (by decide)⟩

/-- C7: a submit while a generation request is already in flight
(`submitting = true`) is a no-op: no validation result, no redirect, no
network request, no state change. -/
theorem handleSubmit_reentrancy (env : SubmitEnv) (h : env.submitting = true) :
    handleSubmit env = SubmitOutcome.noop := by
  unfold handleSubmit
  simp [h]

/-- Witness for C7 at a concrete in-flight page state. -/
theorem handleSubmit_reentrancy_witness :
    handleSubmit ⟨true, true, true, "tired", "calm", true, true, "30"⟩ =
      SubmitOutcome.noop :=
  handleSubmit_reentrancy ⟨true, true, true, "tired", "calm", true, true, "30"⟩ rfl

/-- C8: with no request in flight, a submit whose trimmed current-mood text is
empty stops with the mood-specific message, a submit whose trimmed goal text
is empty stops with the goal-specific message, the two messages differ, and in
both cases the outcome is a validation error, not a network request. -/
theorem handleSubmit_empty_fields (env : SubmitEnv)
    (hs : env.submitting = false) (hm : env.moodInputPresent = true)
    (hg : env.goalInputPresent = true) :
    (jsTrim env.moodValue = "" →
      handleSubmit env =
        SubmitOutcome.validationError "Tell me how you are feeling right now.") ∧
    (jsTrim env.moodValue ≠ "" → jsTrim env.goalValue = "" →
      handleSubmit env =
        SubmitOutcome.validationError "Tell me how you want to feel.") ∧
    "Tell me how you are feeling right now." ≠ "Tell me how you want to feel." := by
  refine ⟨?_, ?_, by decide⟩
  · intro h
    unfold handleSubmit
    simp [hs, hm, hg, h]
  · intro h h2
    unfold handleSubmit
    simp [hs, hm, hg, h, h2]

/-- Witness for C8: a whitespace-only mood field and an empty goal field each
produce their own message. -/
theorem handleSubmit_empty_fields_witness :
    handleSubmit ⟨false, true, true, "   ", "calm", true, true, "30"⟩ =
      SubmitOutcome.validationError "Tell me how you are feeling right now." ∧
    handleSubmit ⟨false, true, true, "tired", " ", true, true, "30"⟩ =
      SubmitOutcome.validationError "Tell me how you want to feel." :=
  ⟨(handleSubmit_empty_fields ⟨false, true, true, "   ", "calm", true, true, "30"⟩
      rfl rfl rfl).1 (by decide),
   (handleSubmit_empty_fields ⟨false, true, true, "tired", " ", true, true, "30"⟩
      rfl rfl rfl).2.1 (by decide) (by decide)⟩

/-- C9: the backend auth probe never throws: a transport failure, a non-2xx
status, and a body-decode failure each return `none` (JS `null`) instead of
propagating, and a decoded 2xx body is returned as-is. -/
theorem checkAuth_never_throws (f : FetchOutcome AuthMe) :
    (checkAuth f = none ∨ ∃ a, checkAuth f = some a) ∧
    (f = FetchOutcome.transportError → checkAuth f = none) ∧
    (∀ body, f = FetchOutcome.response false body → checkAuth f = none) ∧
    (∀ ok e, f = FetchOutcome.response ok (Except.error e) → checkAuth f = none) ∧
    (∀ a, f = FetchOutcome.response true (Except.ok a) → checkAuth f = some a) := by
  refine ⟨?_, ?_, ?_, ?_, ?_⟩
  · cases h : checkAuth f with
    | none => exact Or.inl rfl
    | some a => exact Or.inr ⟨a, rfl⟩
  · rintro rfl; rfl
  · rintro body rfl
    cases body <;> rfl
  · rintro ok e rfl
    cases ok <;> rfl
  · rintro a rfl; rfl

/-- Witness for C9 at the transport-failure outcome. -/
theorem checkAuth_never_throws_witness :
    checkAuth (FetchOutcome.transportError) = none :=
  (checkAuth_never_throws FetchOutcome.transportError).2.1 rfl

/-- C10: every generation request body has `stages = 5` (never
user-adjustable) and `tracks` equal to `parseInt(tracksInput.value, 10)` when
the slider exists, or the constant 30 when it does not. -/
theorem handleSubmit_body_constants (env : SubmitEnv)
    (hs : env.submitting = false) (hm : env.moodInputPresent = true)
    (hg : env.goalInputPresent = true)
    (ht : jsTrim env.moodValue ≠ "") (hgt : jsTrim env.goalValue ≠ "")
    (ha : env.authenticated = true) :
    ∃ body, handleSubmit env = SubmitOutcome.request body ∧
      body.stages = 5 ∧
      body.tracks =
        (if env.tracksInputPresent then parseIntJs env.tracksValue else some 30) := by
  refine ⟨{ text := jsTrim env.moodValue
            goal := jsTrim env.goalValue
            mode := detectMode (jsTrim env.moodValue ++ " " ++ jsTrim env.goalValue)
            stages := 5
            tracks := if env.tracksInputPresent then parseIntJs env.tracksValue else some 30
            isPublic := false }, ?_, rfl, rfl⟩
  unfold handleSubmit
  simp [hs, hm, hg, ht, hgt, ha]

/-- Witness for C10: a concrete valid submission with the slider at 25. -/
theorem handleSubmit_body_constants_witness :
    ∃ body, handleSubmit ⟨false, true, true, "tired", "calm", true, true, "25"⟩ =
        SubmitOutcome.request body ∧
      body.stages = 5 ∧ body.tracks = (if true then parseIntJs "25" else some 30) :=
  handleSubmit_body_constants ⟨false, true, true, "tired", "calm", true, true, "25"⟩
    rfl rfl rfl (by decide) (by decide) rfl

/-- C2: `apiFetch` fails before any request is built exactly when the resolved
API base URL has a loopback hostname while the page hostname is not loopback;
in every other case the guard passes and the request is built unchanged. -/
theorem apiFetch_localhost_guard (apiBaseUrl pageHostname path : String)
    (init : ApiInit) (tokenFetch : Except String (Option String)) :
    (isApiBaseLocalhost apiBaseUrl = true ∧ isLocalHostname pageHostname = false →
      apiFetchRequest apiBaseUrl pageHostname path init tokenFetch =
        Except.error localhostGuardMessage) ∧
    (isApiBaseLocalhost apiBaseUrl = false ∨ isLocalHostname pageHostname = true →
      apiFetchRequest apiBaseUrl pageHostname path init tokenFetch =
        Except.ok { url := apiUrl apiBaseUrl path
                    headers := buildApiHeaders init tokenFetch
                    credentialsInclude := true }) := by
  constructor
  · rintro ⟨hbase, hpage⟩
    have hne : apiBaseUrl ≠ "" := by
      intro h
      rw [h] at hbase
      exact absurd hbase (by decide)
    unfold apiFetchRequest ensureApiReachableFromFrontend
    simp [hne, hpage, hbase]
  · intro h
    unfold apiFetchRequest ensureApiReachableFromFrontend
    by_cases he : apiBaseUrl = ""
    · simp [he]
    · rcases h with h | h <;> simp [he, h]

/-- Witness for C2: a loopback API base with a hosted page fails with the
guard message. -/
theorem apiFetch_localhost_guard_witness :
    isApiBaseLocalhost "http://127.0.0.1:8000" = true ∧
    isLocalHostname "app.example.com" = false ∧
    apiFetchRequest "http://127.0.0.1:8000" "app.example.com"
        "/generate-mood-arc-playlist" ⟨[], false, false⟩ (Except.ok none) =
      Except.error localhostGuardMessage :=
  ⟨by decide, by decide,
    (apiFetch_localhost_guard "http://127.0.0.1:8000" "app.example.com"
        "/generate-mood-arc-playlist" ⟨[], false, false⟩ (Except.ok none)).1
      ⟨by decide, by decide⟩⟩


/-- Reduction of `ensureAuthenticated` on an authenticated response with a
non-empty user id. -/
theorem ensureAuthenticated_some_ok (u : String) (dn : Option String)
    (hu : u ≠ "") :
    ensureAuthenticated (some ⟨true, some u, dn⟩) =
      AuthOutcome.ok (displayNameFallback ⟨true, some u, dn⟩ u) u := by
  simp [ensureAuthenticated, jsOrNull, hu]

/-- C4: the page is authenticated exactly when the probe result reports
`authenticated = true` with a non-empty user id; the cached display name is
the reported one, falling back to the user id when absent or empty; every
other probe result (including `null`) redirects to the login page. -/
theorem ensureAuthenticated_characterization (r : Option AuthMe) :
    (∀ d u, ensureAuthenticated r = AuthOutcome.ok d u ↔
      ∃ a, r = some a ∧ a.authenticated = true ∧ a.user_id = some u ∧ u ≠ "" ∧
        d = displayNameFallback a u) ∧
    (ensureAuthenticated r = AuthOutcome.redirect ↔
      ¬ ∃ a u, r = some a ∧ a.authenticated = true ∧ a.user_id = some u ∧ u ≠ "") := by
  rcases r with _ | ⟨auth, uid, dn⟩
  · constructor
    · intro d u
      simp [ensureAuthenticated]
    · simp [ensureAuthenticated]
  · cases auth
    · constructor
      · intro d u
        simp [ensureAuthenticated]
      · simp [ensureAuthenticated]
    · rcases uid with _ | u
      · constructor
        · intro d u
          simp [ensureAuthenticated, jsOrNull]
        · simp [ensureAuthenticated, jsOrNull]
      · by_cases hu : u = ""
        · constructor
          · intro d u'
            constructor
            · intro h
              exfalso
              have hred : ensureAuthenticated (some ⟨true, some u, dn⟩) =
                  AuthOutcome.redirect := by
                simp [ensureAuthenticated, jsOrNull, hu]
              rw [hred] at h
              exact AuthOutcome.noConfusion h
            · rintro ⟨a, ha, hauth, huid, hne, hd⟩
              injection ha with h2
              subst h2
              injection huid with h3
              exact absurd (h3 ▸ hu) hne
          · have hred : ensureAuthenticated (some ⟨true, some u, dn⟩) =
                AuthOutcome.redirect := by
              simp [ensureAuthenticated, jsOrNull, hu]
            rw [hred]
            simp only [true_iff]
            rintro ⟨a, u', ha, hauth, huid, hne⟩
            injection ha with h2
            subst h2
            injection huid with h3
            exact absurd (h3 ▸ hu) hne
        · have hok := ensureAuthenticated_some_ok u dn hu
          constructor
          · intro d u'
            rw [hok]
            constructor
            · intro h
              injection h with hd hu'
              subst hu'
              exact ⟨⟨true, some u, dn⟩, rfl, rfl, rfl, hu, hd.symm⟩
            · rintro ⟨a, ha, hauth, huid, hne, hd⟩
              injection ha with h2
              subst h2
              injection huid with h3
              subst h3
              rw [hd]
          · rw [hok]
            constructor
            · intro h
              exact AuthOutcome.noConfusion h
            · intro h
              exact absurd ⟨⟨true, some u, dn⟩, u, rfl, rfl, rfl, hu⟩ h

/-- Witness for C4: an authenticated probe result with user id "alice" and no
display name caches "alice" as both the display name and the user id. -/
theorem ensureAuthenticated_characterization_witness :
    ensureAuthenticated (some ⟨true, some "alice", none⟩) =
      AuthOutcome.ok "alice" "alice" :=
  ((ensureAuthenticated_characterization (some ⟨true, some "alice", none⟩)).1
      "alice" "alice").mpr
    ⟨⟨true, some "alice", none⟩, rfl, rfl, rfl, by decide, rfl⟩

/-- C5: a decoded payload with a non-empty playlist URL, zero tracks added and
a non-empty track-links list renders exactly one fallback link per track link
(the rendered list has the same length as the track-links list) and hides the
mood form. -/
theorem renderPlaylist_fallback_links (dom : Dom) (data : Option GenPayload)
    (ht : dom.playlistTitle = true) (hl : dom.playlistLink = true)
    (hm : dom.moodForm = true) (htr : dom.trackListEl = true)
    (hurl : payloadUrl data ≠ "") (hadded : payloadTracksAdded data = 0)
    (hlinks : payloadTrackLinks data ≠ []) :
    (renderPlaylist dom data).renderedTrackLinks =
      some (trackLinkTexts (payloadTrackLinks data)) ∧
    (trackLinkTexts (payloadTrackLinks data)).length =
      (payloadTrackLinks data).length ∧
    (renderPlaylist dom data).moodFormHidden = some true := by
  have hlen : 0 < (payloadTrackLinks data).length :=
    List.length_pos.mpr hlinks
  refine ⟨?_, ?_, ?_⟩
  · unfold renderPlaylist
    simp [ht, hl, hm, htr, hurl, hadded, hlen]
  · unfold trackLinkTexts
    simp
  · unfold renderPlaylist
    simp [ht, hl, hm, htr, hurl]

/-- Witness for C5: a playlist URL with one track link and zero tracks added
renders one link and hides the form. -/
theorem renderPlaylist_fallback_links_witness :
    (renderPlaylist ⟨true, true, true, true, true, true, true, true, true, true⟩
        (some ⟨none, none, some "https://open.spotify.com/playlist/1", none,
          some [⟨some "Song", some "Artist", "https://open.spotify.com/track/1"⟩],
          none, some 0⟩)).renderedTrackLinks =
      some (trackLinkTexts
        (payloadTrackLinks (some ⟨none, none,
          some "https://open.spotify.com/playlist/1", none,
          some [⟨some "Song", some "Artist", "https://open.spotify.com/track/1"⟩],
          none, some 0⟩))) ∧
    (trackLinkTexts
        (payloadTrackLinks (some ⟨none, none,
          some "https://open.spotify.com/playlist/1", none,
          some [⟨some "Song", some "Artist", "https://open.spotify.com/track/1"⟩],
          none, some 0⟩))).length =
      (payloadTrackLinks (some ⟨none, none,
          some "https://open.spotify.com/playlist/1", none,
          some [⟨some "Song", some "Artist", "https://open.spotify.com/track/1"⟩],
          none, some 0⟩)).length ∧
    (renderPlaylist ⟨true, true, true, true, true, true, true, true, true, true⟩
        (some ⟨none, none, some "https://open.spotify.com/playlist/1", none,
          some [⟨some "Song", some "Artist", "https://open.spotify.com/track/1"⟩],
          none, some 0⟩)).moodFormHidden = some true :=
  renderPlaylist_fallback_links
    ⟨true, true, true, true, true, true, true, true, true, true⟩
    (some ⟨none, none, some "https://open.spotify.com/playlist/1", none,
      some [⟨some "Song", some "Artist", "https://open.spotify.com/track/1"⟩],
      none, some 0⟩)
    rfl rfl rfl rfl (by decide) (by decide) (by decide)

/-- C6: a decoded payload with no playlist URL (absent or empty) surfaces the
server note verbatim, or the fixed fallback string when the note is absent or
empty, and leaves the mood form's visibility untouched. -/
theorem renderPlaylist_no_url (dom : Dom) (data : Option GenPayload)
    (ht : dom.playlistTitle = true) (hl : dom.playlistLink = true)
    (hf : dom.flowError = true) (hurl : payloadUrl data = "") :
    (renderPlaylist dom data).flowErrorMsg =
      some (jsOrS (payloadNote data)
        "Playlist could not be created. Please try again.") ∧
    (renderPlaylist dom data).moodFormHidden = none := by
  constructor <;>
    · unfold renderPlaylist
      simp [ht, hl, hf, hurl, RenderEffect.none]

/-- Witness for C6: a payload with no URL and an empty note surfaces the fixed
fallback message and leaves the form alone. -/
theorem renderPlaylist_no_url_witness :
    (renderPlaylist ⟨true, true, true, true, true, true, true, true, true, true⟩
        (some ⟨some "My playlist", none, none, none, none, none, none⟩)).flowErrorMsg =
      some (jsOrS (payloadNote (some ⟨some "My playlist", none, none, none, none,
        none, none⟩)) "Playlist could not be created. Please try again.") ∧
    (renderPlaylist ⟨true, true, true, true, true, true, true, true, true, true⟩
        (some ⟨some "My playlist", none, none, none, none, none,
          none⟩)).moodFormHidden = none :=
  renderPlaylist_no_url
    ⟨true, true, true, true, true, true, true, true, true, true⟩
    (some ⟨some "My playlist", none, none, none, none, none, none⟩)
    rfl rfl rfl (by decide)

/-- Header-name comparison is reflexive. -/
theorem headerNameEq_refl (n : String) : headerNameEq n n = true := by
  simp [headerNameEq]

/-- Two names both matching a third match each other. -/
theorem headerNameEq_trans_left (p n m : String)
    (h1 : headerNameEq p n = true) (h2 : headerNameEq p m = true) :
    headerNameEq n m = true := by
  simp only [headerNameEq, beq_iff_eq] at h1 h2 ⊢
  exact h1.symm.trans h2

/-- The replace branch of `setHeader` does not change which names occur. -/
theorem hasHeader_mapset (hs : List (String × String)) (n v m : String) :
    hasHeader (hs.map (fun p => if headerNameEq p.1 n then (p.1, v) else p)) m
      = hasHeader hs m := by
  induction hs with
  | nil => rfl
  | cons p ps ih =>
    by_cases hp : headerNameEq p.1 n = true
    · simp only [List.map_cons, hasHeader, List.any_cons] at ih ⊢
      rw [if_pos hp, ih]
    · simp only [List.map_cons, hasHeader, List.any_cons] at ih ⊢
      rw [if_neg hp, ih]

/-- The replace branch of `setHeader` leaves lookups of a different name
unchanged. -/
theorem getHeader_mapset (hs : List (String × String)) (n v m : String)
    (h : headerNameEq n m = false) :
    getHeader (hs.map (fun p => if headerNameEq p.1 n then (p.1, v) else p)) m
      = getHeader hs m := by
  induction hs with
  | nil => rfl
  | cons p ps ih =>
    by_cases hp : headerNameEq p.1 n = true
    · have hm : headerNameEq p.1 m = false := by
        by_contra hc
        rw [Bool.not_eq_false] at hc
        rw [headerNameEq_trans_left p.1 n m hp hc] at h
        exact absurd h (by decide)
      simp [getHeader, List.find?, hp, hm] at ih ⊢
      exact ih
    · by_cases hm : headerNameEq p.1 m = true
      · simp [getHeader, List.find?, hp, hm]
      · simp [getHeader, List.find?, hp, hm] at ih ⊢
        exact ih

/-- Appending an entry of a different name leaves a lookup unchanged. -/
theorem getHeader_append_single_ne (hs : List (String × String)) (n v m : String)
    (h : headerNameEq n m = false) :
    getHeader (hs ++ [(n, v)]) m = getHeader hs m := by
  induction hs with
  | nil => simp [getHeader, List.find?, h]
  | cons p ps ih =>
    by_cases hp : headerNameEq p.1 m = true
    · simp [getHeader, List.find?, hp]
    · simp [getHeader, List.find?, hp] at ih ⊢
      exact ih

/-- Appending an entry whose name was absent makes lookups find it. -/
theorem getHeader_append_self (hs : List (String × String)) (n v : String)
    (h : hasHeader hs n = false) :
    getHeader (hs ++ [(n, v)]) n = some v := by
  induction hs with
  | nil => simp [getHeader, List.find?, headerNameEq_refl]
  | cons p ps ih =>
    simp only [hasHeader, List.any_cons, Bool.or_eq_false_iff] at h
    have hps : hasHeader ps n = false := h.2
    simp [getHeader, List.find?, h.1] at ih ⊢
    exact ih hps

/-- `hasHeader` after an append of a single entry. -/
theorem hasHeader_append_single (hs : List (String × String)) (n v m : String) :
    hasHeader (hs ++ [(n, v)]) m = (hasHeader hs m || headerNameEq n m) := by
  simp [hasHeader, List.any_append]

/-- `setHeader` with one name does not change which other names occur. -/
theorem hasHeader_setHeader_ne (hs : List (String × String)) (n v m : String)
    (h : headerNameEq n m = false) :
    hasHeader (setHeader hs n v) m = hasHeader hs m := by
  unfold setHeader
  by_cases hh : hasHeader hs n = true
  · rw [if_pos hh, hasHeader_mapset]
  · rw [if_neg hh, hasHeader_append_single, h, Bool.or_false]

/-- `setHeader` with one name leaves lookups of a different name unchanged. -/
theorem getHeader_setHeader_ne (hs : List (String × String)) (n v m : String)
    (h : headerNameEq n m = false) :
    getHeader (setHeader hs n v) m = getHeader hs m := by
  unfold setHeader
  by_cases hh : hasHeader hs n = true
  · rw [if_pos hh]
    exact getHeader_mapset hs n v m h
  · rw [if_neg hh]
    exact getHeader_append_single_ne hs n v m h

/-- The Content-Type step does not touch the Authorization header. -/
theorem withContentTypeHeader_auth_has (init : ApiInit) :
    hasHeader (withContentTypeHeader init) "Authorization" =
      hasHeader init.headers "Authorization" := by
  unfold withContentTypeHeader
  by_cases h : (init.hasBody && !init.isFormData &&
      !hasHeader init.headers "Content-Type") = true
  · rw [if_pos h]
    exact hasHeader_setHeader_ne _ _ _ _ (by decide)
  · rw [if_neg h]

/-- The Content-Type step preserves the Authorization value. -/
theorem withContentTypeHeader_auth_get (init : ApiInit) :
    getHeader (withContentTypeHeader init) "Authorization" =
      getHeader init.headers "Authorization" := by
  unfold withContentTypeHeader
  by_cases h : (init.hasBody && !init.isFormData &&
      !hasHeader init.headers "Content-Type") = true
  · rw [if_pos h]
    exact getHeader_setHeader_ne _ _ _ _ (by decide)
  · rw [if_neg h]

/-- The Accept step does not touch the Authorization header. -/
theorem withAcceptHeader_auth_has (hs : List (String × String)) :
    hasHeader (withAcceptHeader hs) "Authorization" = hasHeader hs "Authorization" := by
  unfold withAcceptHeader
  by_cases h : (!hasHeader hs "Accept") = true
  · rw [if_pos h]
    exact hasHeader_setHeader_ne _ _ _ _ (by decide)
  · rw [if_neg h]

/-- The Accept step preserves the Authorization value. -/
theorem withAcceptHeader_auth_get (hs : List (String × String)) :
    getHeader (withAcceptHeader hs) "Authorization" = getHeader hs "Authorization" := by
  unfold withAcceptHeader
  by_cases h : (!hasHeader hs "Accept") = true
  · rw [if_pos h]
    exact getHeader_setHeader_ne _ _ _ _ (by decide)
  · rw [if_neg h]

/-- C3: the request client attaches `Authorization: Bearer <token>` exactly
when a non-empty token was obtained and the caller supplied no Authorization
header; a caller-supplied Authorization header is never overwritten; a
failure while obtaining the token is swallowed and treated as no token. -/
theorem apiFetch_authorization_header (init : ApiInit)
    (tokenFetch : Except String (Option String)) :
    (hasHeader init.headers "Authorization" = false → tokenOf tokenFetch ≠ "" →
      getHeader (buildApiHeaders init tokenFetch) "Authorization" =
        some ("Bearer " ++ tokenOf tokenFetch)) ∧
    (hasHeader init.headers "Authorization" = true →
      getHeader (buildApiHeaders init tokenFetch) "Authorization" =
        getHeader init.headers "Authorization") ∧
    (tokenOf tokenFetch = "" →
      hasHeader (buildApiHeaders init tokenFetch) "Authorization" =
        hasHeader init.headers "Authorization") ∧
    (∀ e, buildApiHeaders init (Except.error e) =
      buildApiHeaders init (Except.ok none)) := by
  have hpre_has : hasHeader (withAcceptHeader (withContentTypeHeader init))
      "Authorization" = hasHeader init.headers "Authorization" :=
    (withAcceptHeader_auth_has _).trans (withContentTypeHeader_auth_has init)
  have hpre_get : getHeader (withAcceptHeader (withContentTypeHeader init))
      "Authorization" = getHeader init.headers "Authorization" :=
    (withAcceptHeader_auth_get _).trans (withContentTypeHeader_auth_get init)
  refine ⟨?_, ?_, ?_, fun e => rfl⟩
  · intro hno htok
    unfold buildApiHeaders
    have hbne : (tokenOf tokenFetch != "") = true := bne_iff_ne.mpr htok
    have hnohdr : hasHeader (withAcceptHeader (withContentTypeHeader init))
        "Authorization" = false := hpre_has.trans hno
    simp only [hbne, hnohdr, Bool.not_false, Bool.and_true, if_true]
    unfold setHeader
    simp only [hnohdr, if_false]
    exact getHeader_append_self _ _ _ hnohdr
  · intro hyes
    unfold buildApiHeaders
    have hhdr : hasHeader (withAcceptHeader (withContentTypeHeader init))
        "Authorization" = true := hpre_has.trans hyes
    simp only [hhdr, Bool.not_true, Bool.and_false, if_false]
    exact hpre_get
  · intro htok
    unfold buildApiHeaders
    simp only [htok, bne_self_eq_false, Bool.false_and, if_false]
    exact hpre_has

/-- Witness for C3: with no caller Authorization header and token "tok", the
built headers carry `Authorization: Bearer tok`. -/
theorem apiFetch_authorization_header_witness :
    getHeader (buildApiHeaders ⟨[], true, false⟩ (Except.ok (some "tok")))
        "Authorization" =
      some ("Bearer " ++ tokenOf (Except.ok (some "tok"))) :=
  (apiFetch_authorization_header ⟨[], true, false⟩ (Except.ok (some "tok"))).1
    rfl (by decide)
